import Mathlib

/-!
Verification of the `lightning_polar_scripts` client classes
(`core_lightning.py` / `lnd.py` / `config.py`) via a shallow embedding.

Conventions of the embedding:
* Python `dict` configuration maps become association lists.
* Python `Optional[T]` fields become `Option T`; Python truthiness of an
  optional int (`if x:` is false for both `None` and `0`) is made explicit.
* A fallible Python call becomes a function into `Except PyError _`, where
  `PyError` mirrors the exception classes the clients raise
  (`ValueError`, `ConnectionError`, `RuntimeError`).
* The HTTP transport is abstracted as a `WireOutcome`: either a transport
  failure (DNS / TLS / connection refused, which `requests` raises as a
  `requests.exceptions.ConnectionError`), or an HTTP response with a status
  code and a body that either parsed as JSON (typed per endpoint) or did not.
* Millisatoshi and satoshi amounts are `Nat` (Python ints, non-negative on
  the wire); LND balances parsed with `int(...)` are `Int`.
-/

/-- Python exception values raised to the caller by the two clients. -/
inductive PyError where
  | valueError (msg : String)
  | connectionError (msg : String)
  | runtimeError (msg : String)
deriving DecidableEq, Repr

/-- True exactly on the `ValueError` constructor: the configuration-error
class both constructors use for bad node configuration. -/
def PyError.isValueError : PyError → Bool
  | .valueError _ => true
  | _ => false

/-- True exactly on the `ConnectionError` constructor. -/
def PyError.isConnectionError : PyError → Bool
  | .connectionError _ => true
  | _ => false

/-- True exactly on the `RuntimeError` constructor. -/
def PyError.isRuntimeError : PyError → Bool
  | .runtimeError _ => true
  | _ => false

/-- The message carried by a `PyError`. -/
def PyError.msg : PyError → String
  | .valueError m => m
  | .connectionError m => m
  | .runtimeError m => m

/-- Exceptions that can escape the `try` body of a low-level request:
a transport-level `requests.exceptions.ConnectionError`, an
`requests.exceptions.HTTPError` from `raise_for_status()`, or a JSON decode
failure from `response.json()`.  For the decode failure, whether the raised
exception is ALSO a `requests.exceptions.RequestException` depends on the
installed `requests` version (it is, for `requests >= 2.27`), so that class
membership is kept as an explicit boolean field. -/
inductive ReqExc where
  | connectionExc (msg : String)
  | httpExc (status : Nat)
  | jsonDecodeExc (isReqExc : Bool)
deriving DecidableEq, Repr

/-- Membership in the `requests.exceptions.RequestException` class:
`ConnectionError` and `HTTPError` are always subclasses; the JSON decode
exception carries its own version-dependent flag. -/
def ReqExc.isRequestException : ReqExc → Bool
  | .connectionExc _ => true
  | .httpExc _ => true
  | .jsonDecodeExc b => b

/-- Membership in the `json.JSONDecodeError` class. -/
def ReqExc.isJSONDecodeError : ReqExc → Bool
  | .jsonDecodeExc _ => true
  | _ => false

/-- Stand-in for Python `str(e)` on a request exception (the exact library
text is irrelevant to the claims; only its interpolation point matters). -/
def ReqExc.str : ReqExc → String
  | .connectionExc m => m
  | .httpExc s => toString s ++ " Server Error"
  | .jsonDecodeExc _ => "Expecting value"

/-- Outcome of one HTTP exchange, with `β` the parsed-JSON shape of the
endpoint: a transport failure, or a response with a status code and a body
(`none` when the body is not valid JSON). -/
inductive WireOutcome (β : Type) where
  | transportFailure (msg : String)
  | httpResponse (status : Nat) (body : Option β)

/-- `requests.Response.raise_for_status()` raises for 4xx and 5xx codes. -/
def raiseForStatusFails (status : Nat) : Bool :=
  400 ≤ status && status < 600

/-- The body of the `try` block shared by both clients' request primitives:
perform the exchange, call `raise_for_status()`, then parse JSON.  `jsonFlag`
records whether the installed `requests` raises its JSON decode error as a
`RequestException` subclass. -/
def tryRequestBody {β : Type} (jsonFlag : Bool) :
    WireOutcome β → Except ReqExc β
  | .transportFailure m => .error (.connectionExc m)
  | .httpResponse status body =>
      if raiseForStatusFails status then .error (.httpExc status)
      else
        match body with
        | some b => .ok b
        | none => .error (.jsonDecodeExc jsonFlag)

/-- Node configuration record (`config.py`, `NodeConfig`). -/
structure NodeConfig where
  name : String
  implementation : String
  rpc_host : String := "localhost"
  rpc_port : Int
  rest_port : Option Nat := none
  macaroon_path : Option String := none
  cert_path : Option String := none
  rune_path : Option String := none
  client_cert_path : Option String := none
  client_key_path : Option String := none
  ca_cert_path : Option String := none
  socket_path : Option String := none

/-- Polar network configuration (`config.py`, `PolarConfig`): the node
dictionary as an association list keyed by node name. -/
structure PolarConfig where
  nodes : List (String × NodeConfig)

/-- Python truthiness of an optional int: `None` and `0` are both falsy. -/
def optNatTruthy : Option Nat → Bool
  | none => false
  | some n => n != 0

/-- Python truthiness of an optional string: `None` and `""` are falsy. -/
def optStrTruthy : Option String → Bool
  | none => false
  | some s => s != ""

/-- Python `str.upper()` restricted to ASCII, character by character. -/
def pyUpper (s : String) : String :=
  String.mk (s.data.map Char.toUpper)

/-- Helper for `pySplit`: walk the characters, cutting at the separator;
`acc` holds the current chunk reversed. -/
def pySplitAux (sep : Char) : List Char → List Char → List String
  | [], acc => [String.mk acc.reverse]
  | c :: cs, acc =>
      if c = sep then String.mk acc.reverse :: pySplitAux sep cs []
      else pySplitAux sep cs (c :: acc)

/-- Python `str.split(sep)` for a one-character separator: splits at every
occurrence and keeps empty chunks (`"".split(sep)` gives `[""]`). -/
def pySplit (s : String) (sep : Char) : List String :=
  pySplitAux sep s.data []

namespace CoreLightningClient

/-- One entry of the `outputs` array of a CLN `listfunds` response. -/
structure FundsOutput where
  amount_msat : Nat
  status : String

/-- One entry of the `channels` array of a CLN `listfunds` response. -/
structure FundsChannel where
  our_amount_msat : Nat

/-- The parsed JSON shape of a CLN `listfunds` response; the code reads
`balance.get('outputs', [])` and `balance.get('channels', [])`, so both
arrays default to empty when absent. -/
structure ListFundsResp where
  outputs : List FundsOutput := []
  channels : List FundsChannel := []

/-- `get_balance` (`core_lightning.py` lines 99-112), applied to a parsed
`listfunds` response: sum `amount_msat` of outputs whose `status` equals
`"confirmed"`, plus `our_amount_msat` of every channel, floor-divided
by 1000. -/
def get_balance (r : ListFundsResp) : Nat :=
  let total_outputs :=
    ((r.outputs.filter (fun o => o.status == "confirmed")).map
      (fun o => o.amount_msat)).sum
  let total_channels := (r.channels.map (fun c => c.our_amount_msat)).sum
  (total_outputs + total_channels) / 1000

end CoreLightningClient

/-- Spec-side reading of the CLN balance numerator: the sum over ALL outputs
of `amount_msat` gated on `status = "confirmed"`, written independently of
the code's filter-then-sum shape. -/
def specConfirmedOutputsMsat (r : CoreLightningClient.ListFundsResp) : Nat :=
  (r.outputs.map (fun o => if o.status = "confirmed" then o.amount_msat else 0)).sum

/-- Spec-side reading of the channel contribution: sum of local amounts. -/
def specChannelsMsat (r : CoreLightningClient.ListFundsResp) : Nat :=
  (r.channels.map (fun c => c.our_amount_msat)).sum

/-- A filesystem abstraction: maps a path to the file bytes when the file
exists, `none` when it does not. -/
abbrev FileSystem := String → Option (List Nat)

namespace CoreLightningClient

/-- State held by a successfully constructed `CoreLightningClient`.
`_setup_auth` is best-effort (every failure inside it is caught and printed
as a warning, never raised), so construction is modelled without it. -/
structure ClientState where
  node_config : NodeConfig
  base_url : String
  node_name : String

/-- `__init__` (`core_lightning.py` lines 12-29): raises `ValueError` when
the node is absent from the configuration dictionary, when its
`implementation` is not the string `"CLN"`, or when `rest_port` is falsy
(`None` or `0`); otherwise the client is built with
`http://rpc_host:rest_port` as base URL.  No network exchange occurs:
the function consumes only the configuration. -/
def init (config : PolarConfig) (node_name : String) :
    Except PyError ClientState :=
  match config.nodes.lookup node_name with
  | none =>
      .error (.valueError ("Node " ++ node_name ++ " not found in configuration"))
  | some node_config =>
      if node_config.implementation != "CLN" then
        .error (.valueError ("Node " ++ node_name ++ " is not a Core Lightning node"))
      else if !(optNatTruthy node_config.rest_port) then
        .error (.valueError ("REST port not configured for node " ++ node_name))
      else
        .ok { node_config := node_config,
              base_url := "http://" ++ node_config.rpc_host ++ ":"
                ++ toString (node_config.rest_port.getD 0),
              node_name := node_name }

/-- `_make_request` (`core_lightning.py` lines 62-78): one POST, then
`raise_for_status()`, then `response.json()`.  The `except` clauses are
tried in order: `requests.exceptions.RequestException` (re-raised as
`ConnectionError`), then `json.JSONDecodeError` (re-raised as
`RuntimeError`).  `HTTPError` is a subclass of `RequestException`, so a
non-2xx status lands in the FIRST clause.  The final branch models an
exception matching neither clause; it is unreachable, since every `ReqExc`
is in at least one of the two classes. -/
def _make_request {β : Type} (jsonFlag : Bool) (st : ClientState)
    (w : WireOutcome β) : Except PyError β :=
  match tryRequestBody jsonFlag w with
  | .ok b => .ok b
  | .error e =>
      if e.isRequestException then
        .error (.connectionError
          ("Failed to connect to CLN node " ++ st.node_name ++ ": " ++ e.str))
      else if e.isJSONDecodeError then
        .error (.runtimeError
          ("Invalid JSON response from CLN node " ++ st.node_name ++ ": " ++ e.str))
      else
        .error (.runtimeError ("uncaught: " ++ e.str))

/-- Parsed JSON shape of a CLN `listchannels` response, with `α` the type
of a single channel entry; the code reads `channels.get('channels', [])`. -/
structure ListChannelsResp (α : Type) where
  channels : Option (List α) := none

/-- `list_channels` (`core_lightning.py` lines 114-120): issue the
`listchannels` request and return the channel list; any exception is caught
by `except Exception` and re-raised as a `ConnectionError` naming the
operation and the node. -/
def list_channels {α : Type} (jsonFlag : Bool) (st : ClientState)
    (w : WireOutcome (ListChannelsResp α)) : Except PyError (List α) :=
  match _make_request jsonFlag st w with
  | .ok resp => .ok (resp.channels.getD [])
  | .error e =>
      .error (.connectionError
        ("Failed to list channels from CLN node " ++ st.node_name ++ ": " ++ e.msg))

/-- The `params` dictionary sent by `create_invoice`. -/
structure InvoiceParams where
  amount_msat : Nat
  label : String
  description : String

/-- Request construction of `create_invoice` (`core_lightning.py` lines
130-146): `amount_msat = amount_sats * 1000`; the description defaults to
the label via `description or label` (Python truthiness: `None` and the
empty string both fall back to the label). -/
def create_invoice_params (amount_sats : Nat) (label : String)
    (description : Option String) : InvoiceParams :=
  { amount_msat := amount_sats * 1000,
    label := label,
    description := if optStrTruthy description then description.getD "" else label }

/-- The `params` dictionary sent by `pay_invoice`; `amount_msat` is `none`
when the key is not put into the dictionary. -/
structure PayParams where
  bolt11 : String
  amount_msat : Option Nat := none

/-- Request construction of `pay_invoice` (`core_lightning.py` lines
156-171): the `amount_msat` key is added only under `if amount_sats:`
(Python truthiness, so not for `None` and not for `0`), with value
`amount_sats * 1000`. -/
def pay_invoice_params (payment_request : String) (amount_sats : Option Nat) :
    PayParams :=
  { bolt11 := payment_request,
    amount_msat :=
      if optNatTruthy amount_sats then some (amount_sats.getD 0 * 1000) else none }

/-- The `params` dictionary sent by `open_channel`; `push_msat` is `none`
when the key is not put into the dictionary. -/
structure FundChannelParams where
  id : String
  amount : Nat
  push_msat : Option Nat := none

/-- Request construction of `open_channel` (`core_lightning.py` lines
195-212): the `amount` field is set to `amount_sats` itself (no unit
conversion), while `push_msat` is set to `push_sats * 1000` when
`push_sats > 0`. -/
def open_channel_params (node_id : String) (amount_sats : Nat)
    (push_sats : Nat) : FundChannelParams :=
  { id := node_id,
    amount := amount_sats,
    push_msat := if push_sats > 0 then some (push_sats * 1000) else none }

/-- The satoshi-amount part of the `params` dictionary sent by `get_route`
(`core_lightning.py` lines 245-257): `amount_msat = amount_sats * 1000`.
The `riskfactor` field is a float constant and is not modelled. -/
structure GetRouteParams where
  id : String
  amount_msat : Nat

/-- Request construction of `get_route`. -/
def get_route_params (destination : String) (amount_sats : Nat) :
    GetRouteParams :=
  { id := destination, amount_msat := amount_sats * 1000 }

/-- Address string built by `connect_peer` (`core_lightning.py` lines
181-193): `node_id@host:port` when both `host` and `port` are truthy,
otherwise `node_id` alone. -/
def connect_address (node_id : String) (host : Option String)
    (port : Option Nat) : String :=
  if optStrTruthy host && optNatTruthy port then
    node_id ++ "@" ++ host.getD "" ++ ":" ++ toString (port.getD 0)
  else node_id

/-- `connect_peer` (`core_lightning.py` lines 181-193): issue the `connect`
request; on success return `True`; any exception is re-raised as a
`RuntimeError` naming the operation and the node. -/
def connect_peer {β : Type} (jsonFlag : Bool) (st : ClientState)
    (node_id : String) (host : Option String) (port : Option Nat)
    (w : WireOutcome β) : Except PyError Bool :=
  let _ := connect_address node_id host port
  match _make_request jsonFlag st w with
  | .ok _ => .ok true
  | .error e =>
      .error (.runtimeError
        ("Failed to connect to peer on CLN node " ++ st.node_name ++ ": " ++ e.msg))

end CoreLightningClient

namespace LNDClient

/-- State held by a successfully constructed `LNDClient`: base URL, the
fixed header dictionary, and the TLS `verify` value (`some path` when
verification is pinned to a certificate, `none` when disabled). -/
structure ClientState where
  node_config : NodeConfig
  node_name : String
  base_url : String
  headers : List (String × String)
  verify : Option String

/-- The lowercase-hex digit for a value below 16: digits start at
code point 48, letters a-f at code point 97. -/
def hexDigit (n : Nat) : Char :=
  if n < 10 then Char.ofNat (48 + n) else Char.ofNat (87 + n)

/-- Lowercase-hex encoding of one byte, as produced by
`codecs.encode(bytes, 'hex')`. -/
def byteToHex (b : Nat) : List Char :=
  [hexDigit (b / 16 % 16), hexDigit (b % 16)]

/-- Lowercase-hex encoding of a byte string. -/
def hexEncode (bytes : List Nat) : String :=
  String.mk ((bytes.map byteToHex).flatten)

/-- `_setup_rest_client` (`lnd.py` lines 32-55): the REST port falls back
to 8080 when `rest_port` is falsy (`rest_port or 8080`); the base URL is
`https://rpc_host:port`; when a macaroon path is configured and the file
exists, its raw bytes are hex-encoded into the fixed
`Grpc-Metadata-macaroon` header, and otherwise the header dictionary stays
empty with no error; `verify` pins to the configured certificate when that
file exists and is disabled otherwise.  The function is total: no branch
raises. -/
def _setup_rest_client (node_config : NodeConfig) (node_name : String)
    (fs : FileSystem) : ClientState :=
  let rest_port : Nat :=
    if optNatTruthy node_config.rest_port then node_config.rest_port.getD 0 else 8080
  let base_url := "https://" ++ node_config.rpc_host ++ ":" ++ toString rest_port
  let headers : List (String × String) :=
    match node_config.macaroon_path with
    | none => []
    | some p =>
        match fs p with
        | some macaroon_bytes => [("Grpc-Metadata-macaroon", hexEncode macaroon_bytes)]
        | none => []
  let verify : Option String :=
    match node_config.cert_path with
    | none => none
    | some p => if (fs p).isSome then some p else none
  { node_config := node_config, node_name := node_name,
    base_url := base_url, headers := headers, verify := verify }

/-- `__init__` (`lnd.py` lines 20-30): raises `ValueError` when the node is
absent from the configuration dictionary or when its `implementation` is
not the string `"LND"`; otherwise `_setup_rest_client` runs.  A missing
`rest_port` is NOT an error here. -/
def init (config : PolarConfig) (node_name : String) (fs : FileSystem) :
    Except PyError ClientState :=
  match config.nodes.lookup node_name with
  | none =>
      .error (.valueError ("Node " ++ node_name ++ " not found in configuration"))
  | some node_config =>
      if node_config.implementation != "LND" then
        .error (.valueError ("Node " ++ node_name ++ " is not an LND node"))
      else
        .ok (_setup_rest_client node_config node_name fs)

/-- `_make_request` (`lnd.py` lines 57-81): dispatch on the HTTP verb
(an unsupported verb raises `ValueError` inside the `try`, caught by none
of the `except` clauses, hence propagating as a `ValueError`); then the
`except` cascade distinguishes, in order,
`requests.exceptions.ConnectionError` (re-raised as `ConnectionError`),
`requests.exceptions.HTTPError` (re-raised as `RuntimeError`, "HTTP
error"), any other `RequestException` (re-raised as `RuntimeError`,
"Request error"), and `json.JSONDecodeError` (re-raised as `RuntimeError`,
"Invalid JSON response").  The JSON decode exception reaches the
`RequestException` clause when the installed `requests` raises it as a
subclass (`jsonFlag = true`) and the dedicated clause otherwise. -/
def _make_request {β : Type} (jsonFlag : Bool) (st : ClientState)
    (method : String) (endpoint : String) (w : WireOutcome β) :
    Except PyError β :=
  let url := st.base_url ++ endpoint
  if pyUpper method != "GET" && pyUpper method != "POST"
      && pyUpper method != "DELETE" then
    .error (.valueError ("Unsupported HTTP method: " ++ method))
  else
    match tryRequestBody jsonFlag w with
    | .ok b => .ok b
    | .error (.connectionExc m) =>
        .error (.connectionError
          ("Failed to connect to LND node " ++ st.node_name ++ " at " ++ url ++ ": " ++ m))
    | .error (.httpExc s) =>
        .error (.runtimeError
          ("HTTP error from LND node " ++ st.node_name ++ ": "
            ++ ReqExc.str (.httpExc s)))
    | .error (.jsonDecodeExc b) =>
        if b then
          .error (.runtimeError
            ("Request error from LND node " ++ st.node_name ++ ": "
              ++ ReqExc.str (.jsonDecodeExc b)))
        else
          .error (.runtimeError
            ("Invalid JSON response from LND node " ++ st.node_name ++ ": "
              ++ ReqExc.str (.jsonDecodeExc b)))

/-- Python tuple unpacking `a, b = parts` of the result of `split`:
succeeds only on exactly two parts, otherwise raises `ValueError` with the
standard message. -/
def pyUnpack2 (parts : List String) : Except String (String × String) :=
  match parts with
  | [a, b] => .ok (a, b)
  | l =>
      if l.length < 2 then
        .error ("not enough values to unpack (expected 2, got "
          ++ toString l.length ++ ")")
      else
        .error "too many values to unpack (expected 2)"

/-- Parsed JSON shape of the close-channel response. -/
structure CloseChannelResp where
  closing_txid : Option String := none

/-- `close_channel` (`lnd.py` lines 207-222): split the channel point on
the colon and unpack into `txid, output_index` (an input without exactly
one colon raises `ValueError` here, BEFORE `_make_request` runs — the
result does not depend on `w` in that case); then DELETE
`/v1/channels/txid/output_index`.  Any exception, the unpack `ValueError`
included, is caught by `except Exception` and re-raised as a generic
`RuntimeError` naming the operation and the node. -/
def close_channel (jsonFlag : Bool) (st : ClientState)
    (channel_point : String) (force : Bool)
    (w : WireOutcome CloseChannelResp) : Except PyError CloseChannelResp :=
  match pyUnpack2 (pySplit channel_point ':') with
  | .error m =>
      .error (.runtimeError
        ("Failed to close channel on LND node " ++ st.node_name ++ ": " ++ m))
  | .ok (txid, output_index) =>
      let endpoint := "/v1/channels/" ++ txid ++ "/" ++ output_index
        ++ (if force then "?force=true" else "")
      match _make_request jsonFlag st "DELETE" endpoint w with
      | .ok resp => .ok { closing_txid := resp.closing_txid }
      | .error e =>
          .error (.runtimeError
            ("Failed to close channel on LND node " ++ st.node_name ++ ": " ++ e.msg))

/-- Parsed JSON shape of `/v1/balance/blockchain`; the code applies
`int(response.get(field, 0))`, so each field is the parsed integer when
present and 0 when absent. -/
structure WalletBalanceResp where
  confirmed_balance : Option Int := none
  unconfirmed_balance : Option Int := none
  total_balance : Option Int := none

/-- Parsed JSON shape of `/v1/balance/channels`. -/
structure ChannelBalanceResp where
  balance : Option Int := none
  pending_open_balance : Option Int := none

/-- The arithmetic of `get_balance` (`lnd.py` lines 103-116) on the two
parsed responses: `int(wallet.get('confirmed_balance', 0)) +
int(channels.get('balance', 0))`. -/
def get_balance_values (wallet_response : WalletBalanceResp)
    (channel_response : ChannelBalanceResp) : Int :=
  let wallet_balance := wallet_response.confirmed_balance.getD 0
  let channel_balance := channel_response.balance.getD 0
  wallet_balance + channel_balance

/-- `get_balance` (`lnd.py` lines 103-116) end to end: GET
`/v1/balance/blockchain`, then GET `/v1/balance/channels`, sum the two
fields; any exception is re-raised as a `ConnectionError` naming the
operation and the node. -/
def get_balance (jsonFlag : Bool) (st : ClientState)
    (w1 : WireOutcome WalletBalanceResp) (w2 : WireOutcome ChannelBalanceResp) :
    Except PyError Int :=
  match _make_request jsonFlag st "GET" "/v1/balance/blockchain" w1 with
  | .error e =>
      .error (.connectionError
        ("Failed to get balance from LND node " ++ st.node_name ++ ": " ++ e.msg))
  | .ok wallet_response =>
      match _make_request jsonFlag st "GET" "/v1/balance/channels" w2 with
      | .error e =>
          .error (.connectionError
            ("Failed to get balance from LND node " ++ st.node_name ++ ": " ++ e.msg))
      | .ok channel_response =>
          .ok (get_balance_values wallet_response channel_response)

/-- The `addr` dictionary built by `connect_peer` (`lnd.py` lines 170-188):
`pubkey` is the part of `node_id` before an `@` when one is present, and
`host` is the part of the composed address after its first `@` when one is
present, else `host:port` when both are truthy, else empty. -/
structure ConnectPeerAddr where
  pubkey : String
  host : String

/-- Request construction of LND `connect_peer`. -/
def connect_peer_addr (node_id : String) (host : Option String)
    (port : Option Nat) : ConnectPeerAddr :=
  let address :=
    if optStrTruthy host && optNatTruthy port then
      node_id ++ "@" ++ host.getD "" ++ ":" ++ toString (port.getD 0)
    else node_id
  { pubkey :=
      if (pySplit node_id '@').length > 1 then (pySplit node_id '@').getD 0 ""
      else node_id,
    host :=
      if (pySplit address '@').length > 1 then (pySplit address '@').getD 1 ""
      else if optStrTruthy host && optNatTruthy port then
        host.getD "" ++ ":" ++ toString (port.getD 0)
      else "" }

/-- `connect_peer` (`lnd.py` lines 170-188): POST `/v1/peers` with the
`addr` dictionary; on success return `True`; any exception is re-raised as
a `RuntimeError` naming the operation and the node. -/
def connect_peer {β : Type} (jsonFlag : Bool) (st : ClientState)
    (node_id : String) (host : Option String) (port : Option Nat)
    (w : WireOutcome β) : Except PyError Bool :=
  let _ := connect_peer_addr node_id host port
  match _make_request jsonFlag st "POST" "/v1/peers" w with
  | .ok _ => .ok true
  | .error e =>
      .error (.runtimeError
        ("Failed to connect to peer on LND node " ++ st.node_name ++ ": " ++ e.msg))

end LNDClient

/-- True when the call succeeded (no exception raised). -/
def exceptIsOk {α : Type} : Except PyError α → Bool
  | .ok _ => true
  | .error _ => false

/-- True when the call raised a `ValueError` (a configuration error). -/
def exceptErrIsValueError {α : Type} : Except PyError α → Bool
  | .error e => e.isValueError
  | .ok _ => false

/-- True when the call raised a `ConnectionError` (a connectivity error). -/
def exceptErrIsConnectionError {α : Type} : Except PyError α → Bool
  | .error e => e.isConnectionError
  | .ok _ => false

/-- True when the call raised a `RuntimeError`. -/
def exceptErrIsRuntimeError {α : Type} : Except PyError α → Bool
  | .error e => e.isRuntimeError
  | .ok _ => false

/-- True only when the call returned `False` without raising. -/
def exceptIsOkFalse : Except PyError Bool → Bool
  | .ok false => true
  | _ => false

/-- The code's filter-then-sum over confirmed outputs agrees with the
spec-side gated sum over all outputs. -/
theorem sum_filter_confirmed (l : List CoreLightningClient.FundsOutput) :
    ((l.filter (fun o => o.status == "confirmed")).map
        (fun o => o.amount_msat)).sum
      = (l.map (fun o => if o.status = "confirmed" then o.amount_msat else 0)).sum := by
  induction l with
  | nil => rfl
  | cons a t ih =>
      by_cases h : a.status = "confirmed" <;>
        simp [List.filter_cons, h, ih]

/-- `get_balance` equals the spec-side formula
`(confirmed outputs + channel local amounts) / 1000`. -/
theorem cln_get_balance_eq_spec (r : CoreLightningClient.ListFundsResp) :
    CoreLightningClient.get_balance r
      = (specConfirmedOutputsMsat r + specChannelsMsat r) / 1000 := by
  simp [CoreLightningClient.get_balance, specConfirmedOutputsMsat,
    specChannelsMsat, sum_filter_confirmed]

/-- C1: for every CLN `listfunds` response, `get_balance` returns the floor
division by 1000 of the sum of `amount_msat` over exactly the outputs whose
status equals "confirmed" plus the sum of `our_amount_msat` over all
channels; an unconfirmed output contributes nothing, and the result never
rounds up (1000 times the result is at most the millisatoshi total). -/
theorem cln_get_balance_spec (r : CoreLightningClient.ListFundsResp)
    (o : CoreLightningClient.FundsOutput) (h : o.status ≠ "confirmed") :
    CoreLightningClient.get_balance r
        = (specConfirmedOutputsMsat r + specChannelsMsat r) / 1000
      ∧ CoreLightningClient.get_balance
          { r with outputs := o :: r.outputs }
        = CoreLightningClient.get_balance r
      ∧ 1000 * CoreLightningClient.get_balance r
        ≤ specConfirmedOutputsMsat r + specChannelsMsat r := by
  refine ⟨cln_get_balance_eq_spec r, ?_, ?_⟩
  · simp [CoreLightningClient.get_balance, List.filter_cons, h]
  · rw [cln_get_balance_eq_spec r, Nat.mul_comm]
    exact Nat.div_mul_le_self _ _

/-- Witness for C1: a concrete response with a confirmed output of
2500 msat, an unconfirmed output of 999 msat, and a channel holding
1501 msat gives a balance of 4 sat (4001 msat floored, the unconfirmed
999 msat ignored). -/
theorem cln_get_balance_spec_witness :
    (CoreLightningClient.FundsOutput.mk 999 "unconfirmed").status ≠ "confirmed"
      ∧ (CoreLightningClient.get_balance
            { outputs := [⟨2500, "confirmed"⟩, ⟨777, "spent"⟩],
              channels := [⟨1501⟩] }
          = (specConfirmedOutputsMsat
              { outputs := [⟨2500, "confirmed"⟩, ⟨777, "spent"⟩],
                channels := [⟨1501⟩] }
            + specChannelsMsat
              { outputs := [⟨2500, "confirmed"⟩, ⟨777, "spent"⟩],
                channels := [⟨1501⟩] }) / 1000
        ∧ CoreLightningClient.get_balance
            { outputs := ⟨999, "unconfirmed"⟩ :: [⟨2500, "confirmed"⟩, ⟨777, "spent"⟩],
              channels := [⟨1501⟩] }
          = CoreLightningClient.get_balance
            { outputs := [⟨2500, "confirmed"⟩, ⟨777, "spent"⟩],
              channels := [⟨1501⟩] }
        ∧ 1000 * CoreLightningClient.get_balance
            { outputs := [⟨2500, "confirmed"⟩, ⟨777, "spent"⟩],
              channels := [⟨1501⟩] }
          ≤ specConfirmedOutputsMsat
              { outputs := [⟨2500, "confirmed"⟩, ⟨777, "spent"⟩],
                channels := [⟨1501⟩] }
            + specChannelsMsat
              { outputs := [⟨2500, "confirmed"⟩, ⟨777, "spent"⟩],
                channels := [⟨1501⟩] }) :=
  ⟨by decide,
   cln_get_balance_spec
     { outputs := [⟨2500, "confirmed"⟩, ⟨777, "spent"⟩], channels := [⟨1501⟩] }
     ⟨999, "unconfirmed"⟩ (by decide)⟩

/-- C2: for every pair of parsed LND balance responses served with HTTP 200,
`get_balance` returns the sum of the `confirmed_balance` field of
`/v1/balance/blockchain` and the `balance` field of `/v1/balance/channels`;
the `unconfirmed_balance` field never affects the result; in particular
500 confirmed + 100 unconfirmed sats on-chain and 300 sats of channel
balance give 800. -/
theorem lnd_get_balance_spec (jf : Bool) (st : LNDClient.ClientState)
    (w : LNDClient.WalletBalanceResp) (c : LNDClient.ChannelBalanceResp)
    (u : Option Int) :
    LNDClient.get_balance jf st
        (.httpResponse 200 (some w)) (.httpResponse 200 (some c))
        = .ok (w.confirmed_balance.getD 0 + c.balance.getD 0)
      ∧ LNDClient.get_balance_values { w with unconfirmed_balance := u } c
        = LNDClient.get_balance_values w c
      ∧ LNDClient.get_balance jf st
          (.httpResponse 200 (some ⟨some 500, some 100, some 600⟩))
          (.httpResponse 200 (some ⟨some 300, some 0⟩))
        = .ok 800 := by
  refine ⟨rfl, rfl, rfl⟩

/-- C3 counterexample: `open_channel` takes a satoshi amount but puts it
into the request's `amount` field unconverted — for a 5-sat funding amount
the field holds 5, not 5 * 1000. -/
theorem cln_open_channel_amount_not_msat :
    (CoreLightningClient.open_channel_params "02aabb" 5 0).amount = 5
      ∧ (CoreLightningClient.open_channel_params "02aabb" 5 0).amount ≠ 5 * 1000 := by
  decide

/-- C3 amended: `create_invoice`, `pay_invoice` (for a nonzero override) and
`get_route` multiply the caller-supplied satoshi amount by 1000 before
placing it in the request's millisatoshi amount field, and `open_channel`
does so for its push amount; `open_channel` sends its funding amount in the
`amount` field unconverted, in satoshis; `get_balance` floor-divides the
millisatoshi total by 1000 before returning satoshis, never rounding up. -/
theorem cln_unit_conversion_amended (s ps : Nat) (lbl nid dest req : String)
    (d : Option String) (r : CoreLightningClient.ListFundsResp) :
    (CoreLightningClient.create_invoice_params s lbl d).amount_msat = s * 1000
      ∧ (CoreLightningClient.pay_invoice_params req (some (s + 1))).amount_msat
        = some ((s + 1) * 1000)
      ∧ (CoreLightningClient.get_route_params dest s).amount_msat = s * 1000
      ∧ (CoreLightningClient.open_channel_params nid s (ps + 1)).push_msat
        = some ((ps + 1) * 1000)
      ∧ (CoreLightningClient.open_channel_params nid s ps).amount = s
      ∧ CoreLightningClient.get_balance r
        = (specConfirmedOutputsMsat r + specChannelsMsat r) / 1000
      ∧ 1000 * CoreLightningClient.get_balance r
        ≤ specConfirmedOutputsMsat r + specChannelsMsat r := by
  refine ⟨rfl, ?_, rfl, ?_, rfl, cln_get_balance_eq_spec r, ?_⟩
  · simp [CoreLightningClient.pay_invoice_params, optNatTruthy]
  · simp [CoreLightningClient.open_channel_params]
  · rw [cln_get_balance_eq_spec r, Nat.mul_comm]
    exact Nat.div_mul_le_self _ _

/-- A concrete CLN client state for instantiating theorems. -/
def sampleClnState : CoreLightningClient.ClientState :=
  { node_config :=
      { name := "bob", implementation := "CLN", rpc_host := "127.0.0.1",
        rpc_port := 0, rest_port := some 8182 },
    base_url := "http://127.0.0.1:8182", node_name := "bob" }

/-- C4 counterexample: a backend answering a listing call with HTTP 500
surfaces as a `ConnectionError` (the connectivity error class), NOT as the
protocol `RuntimeError`: `raise_for_status()` raises `HTTPError`, a
subclass of `RequestException`, which the first `except` clause of
`_make_request` turns into `ConnectionError`. -/
theorem cln_http500_listing_is_connection_error :
    exceptErrIsConnectionError
        (CoreLightningClient.list_channels true sampleClnState
          (WireOutcome.httpResponse 500
            (some ({ channels := some [] } : CoreLightningClient.ListChannelsResp Unit))))
      = true
    ∧ exceptErrIsRuntimeError
        (CoreLightningClient.list_channels true sampleClnState
          (WireOutcome.httpResponse 500
            (some ({ channels := some [] } : CoreLightningClient.ListChannelsResp Unit))))
      = false :=
  ⟨rfl, rfl⟩

/-- C4 amended: in the CLN client a transport failure surfaces as a
connectivity error (`ConnectionError`), and a non-2xx HTTP status (4xx/5xx)
surfaces as the SAME connectivity error, not a distinct protocol error; a
malformed JSON body surfaces as the connectivity error too when the decode
exception is a `RequestException` subclass (modern `requests`), and as the
distinct protocol `RuntimeError` only otherwise; per-operation wrappers
re-raise with a message naming the operation and the node — in particular
HTTP 500 on `list_channels` yields a connectivity error naming both. -/
theorem cln_error_taxonomy_amended (jf : Bool)
    (st : CoreLightningClient.ClientState) (m : String) (status : Nat)
    (body : Option (CoreLightningClient.ListChannelsResp Unit))
    (h1 : 400 ≤ status) (h2 : status < 600) :
    CoreLightningClient._make_request jf st
        (WireOutcome.transportFailure m
          : WireOutcome (CoreLightningClient.ListChannelsResp Unit))
      = .error (.connectionError
          ("Failed to connect to CLN node " ++ st.node_name ++ ": " ++ m))
    ∧ CoreLightningClient._make_request jf st (WireOutcome.httpResponse status body)
      = .error (.connectionError
          ("Failed to connect to CLN node " ++ st.node_name ++ ": "
            ++ ReqExc.str (.httpExc status)))
    ∧ CoreLightningClient._make_request true st
        (WireOutcome.httpResponse 200 none
          : WireOutcome (CoreLightningClient.ListChannelsResp Unit))
      = .error (.connectionError
          ("Failed to connect to CLN node " ++ st.node_name ++ ": "
            ++ ReqExc.str (.jsonDecodeExc true)))
    ∧ CoreLightningClient._make_request false st
        (WireOutcome.httpResponse 200 none
          : WireOutcome (CoreLightningClient.ListChannelsResp Unit))
      = .error (.runtimeError
          ("Invalid JSON response from CLN node " ++ st.node_name ++ ": "
            ++ ReqExc.str (.jsonDecodeExc false)))
    ∧ CoreLightningClient.list_channels jf st (WireOutcome.httpResponse status body)
      = .error (.connectionError
          ("Failed to list channels from CLN node " ++ st.node_name ++ ": "
            ++ PyError.msg (.connectionError
                ("Failed to connect to CLN node " ++ st.node_name ++ ": "
                  ++ ReqExc.str (.httpExc status))))) := by
  have hrfs : raiseForStatusFails status = true := by
    simp only [raiseForStatusFails, Bool.and_eq_true, decide_eq_true_eq]
    exact ⟨h1, h2⟩
  have hmk : CoreLightningClient._make_request jf st
      (WireOutcome.httpResponse status body)
      = .error (.connectionError
          ("Failed to connect to CLN node " ++ st.node_name ++ ": "
            ++ ReqExc.str (.httpExc status))) := by
    simp [CoreLightningClient._make_request, tryRequestBody, hrfs,
      ReqExc.isRequestException]
  refine ⟨rfl, hmk, rfl, rfl, ?_⟩
  simp [CoreLightningClient.list_channels, hmk, PyError.msg]

/-- Witness for the amended C4 at status 500 against a concrete client. -/
theorem cln_error_taxonomy_amended_witness :
    400 ≤ 500 ∧ 500 < 600
    ∧ (CoreLightningClient._make_request true sampleClnState
          (WireOutcome.transportFailure "boom"
            : WireOutcome (CoreLightningClient.ListChannelsResp Unit))
        = .error (.connectionError
            ("Failed to connect to CLN node " ++ sampleClnState.node_name
              ++ ": " ++ "boom"))
      ∧ CoreLightningClient._make_request true sampleClnState
          (WireOutcome.httpResponse 500 none
            : WireOutcome (CoreLightningClient.ListChannelsResp Unit))
        = .error (.connectionError
            ("Failed to connect to CLN node " ++ sampleClnState.node_name ++ ": "
              ++ ReqExc.str (.httpExc 500)))
      ∧ CoreLightningClient._make_request true sampleClnState
          (WireOutcome.httpResponse 200 none
            : WireOutcome (CoreLightningClient.ListChannelsResp Unit))
        = .error (.connectionError
            ("Failed to connect to CLN node " ++ sampleClnState.node_name ++ ": "
              ++ ReqExc.str (.jsonDecodeExc true)))
      ∧ CoreLightningClient._make_request false sampleClnState
          (WireOutcome.httpResponse 200 none
            : WireOutcome (CoreLightningClient.ListChannelsResp Unit))
        = .error (.runtimeError
            ("Invalid JSON response from CLN node " ++ sampleClnState.node_name
              ++ ": " ++ ReqExc.str (.jsonDecodeExc false)))
      ∧ CoreLightningClient.list_channels true sampleClnState
          (WireOutcome.httpResponse 500 none
            : WireOutcome (CoreLightningClient.ListChannelsResp Unit))
        = .error (.connectionError
            ("Failed to list channels from CLN node " ++ sampleClnState.node_name
              ++ ": "
              ++ PyError.msg (.connectionError
                  ("Failed to connect to CLN node " ++ sampleClnState.node_name
                    ++ ": " ++ ReqExc.str (.httpExc 500)))))) :=
  ⟨by decide, by decide,
   cln_error_taxonomy_amended true sampleClnState "boom" 500 none
     (by decide) (by decide)⟩

/-- The spec-side failure condition of C5: the node is absent from the
configuration, its implementation is not CLN, or it lacks a usable REST
port (Python truthiness: unset or zero). -/
def clnInitShouldFail (config : PolarConfig) (node_name : String) : Bool :=
  match config.nodes.lookup node_name with
  | none => true
  | some nc => nc.implementation != "CLN" || !(optNatTruthy nc.rest_port)

/-- C5: constructing a `CoreLightningClient` fails if and only if the node
is absent, is not of kind CLN, or lacks a configured REST port; every
failure is a `ValueError` (configuration error) and never a
`ConnectionError` (connectivity error).  `init` consumes only the
configuration — its type admits no network interaction, so the check
happens before any network call could be attempted. -/
theorem cln_init_config_error_iff (config : PolarConfig) (node_name : String) :
    exceptIsOk (CoreLightningClient.init config node_name)
        = !(clnInitShouldFail config node_name)
      ∧ exceptErrIsValueError (CoreLightningClient.init config node_name)
        = clnInitShouldFail config node_name
      ∧ exceptErrIsConnectionError (CoreLightningClient.init config node_name)
        = false := by
  unfold CoreLightningClient.init clnInitShouldFail
  cases h : config.nodes.lookup node_name with
  | none => simp [exceptIsOk, exceptErrIsValueError, exceptErrIsConnectionError,
      PyError.isValueError, PyError.isConnectionError]
  | some nc =>
      by_cases h1 : nc.implementation = "CLN" <;>
        by_cases h2 : optNatTruthy nc.rest_port = true <;>
          simp [h1, h2, exceptIsOk, exceptErrIsValueError,
            exceptErrIsConnectionError, PyError.isValueError,
            PyError.isConnectionError]


/-- A concrete LND client state for instantiating theorems. -/
def sampleLndState : LNDClient.ClientState :=
  { node_config :=
      { name := "alice", implementation := "LND", rpc_host := "127.0.0.1",
        rpc_port := 10009, rest_port := some 8080 },
    node_name := "alice", base_url := "https://127.0.0.1:8080",
    headers := [], verify := none }

/-- C6: `close_channel` on a channel point without a colon fails on the
tuple unpacking of `split` with a `ValueError`, which the blanket
`except Exception` re-raises as the GENERIC operation `RuntimeError` — the
same error class as any other `close_channel` failure, not a distinct
input-validation error.  The result is the same for every transport
behaviour `w`, showing the failure precedes any HTTP request. -/
theorem lnd_close_channel_no_colon (jf : Bool) (st : LNDClient.ClientState)
    (force : Bool) (w : WireOutcome LNDClient.CloseChannelResp) :
    LNDClient.close_channel jf st "abcdef0123" force w
        = .error (.runtimeError
            ("Failed to close channel on LND node " ++ st.node_name ++ ": "
              ++ "not enough values to unpack (expected 2, got 1)"))
      ∧ exceptErrIsValueError (LNDClient.close_channel jf st "abcdef0123" force w)
        = false := by
  constructor
  · rfl
  · rfl

/-- C7 counterexample: a PRESENT override amount of 0 satoshis is not
included in the payment parameters — `if amount_sats:` is false for 0 — so
the claim that every present override is converted and included fails. -/
theorem cln_pay_invoice_zero_override_dropped :
    (CoreLightningClient.pay_invoice_params "lnbc0xyz" (some 0)).amount_msat = none
      ∧ (CoreLightningClient.pay_invoice_params "lnbc0xyz" (some 0)).amount_msat
        ≠ some (0 * 1000) := by
  decide

/-- C7 amended: `pay_invoice` includes `amount_msat = amount_sats * 1000`
in the payment parameters exactly when the override is present AND nonzero;
an absent or zero override sends no amount field; the payment request is
passed through as `bolt11` unchanged. -/
theorem cln_pay_invoice_override_amended (req : String) (s : Nat) :
    (CoreLightningClient.pay_invoice_params req (some (s + 1))).amount_msat
        = some ((s + 1) * 1000)
      ∧ (CoreLightningClient.pay_invoice_params req (some 0)).amount_msat = none
      ∧ (CoreLightningClient.pay_invoice_params req none).amount_msat = none
      ∧ (CoreLightningClient.pay_invoice_params req (some (s + 1))).bolt11 = req
      ∧ (CoreLightningClient.pay_invoice_params req none).bolt11 = req := by
  refine ⟨?_, rfl, rfl, rfl, rfl⟩
  simp [CoreLightningClient.pay_invoice_params, optNatTruthy]

/-- The spec-side failure condition of C8: the node is absent from the
configuration or its implementation is not LND; the REST port plays no
role. -/
def lndInitShouldFail (config : PolarConfig) (node_name : String) : Bool :=
  match config.nodes.lookup node_name with
  | none => true
  | some nc => nc.implementation != "LND"

/-- C8: constructing an `LNDClient` fails if and only if the node is absent
or not of kind LND, always with a `ValueError` (configuration error), never
a `ConnectionError`; an unset (or zero, hence falsy) REST port is NOT a
construction error — the port defaults to 8080 and the base URL is built
from that default — and construction succeeds for a well-kinded node with
no REST port configured. -/
theorem lnd_init_config_error_and_default_port (config : PolarConfig)
    (node_name n : String) (fs : FileSystem) (nc : NodeConfig) :
    exceptIsOk (LNDClient.init config node_name fs)
        = !(lndInitShouldFail config node_name)
      ∧ exceptErrIsValueError (LNDClient.init config node_name fs)
        = lndInitShouldFail config node_name
      ∧ exceptErrIsConnectionError (LNDClient.init config node_name fs) = false
      ∧ (LNDClient._setup_rest_client { nc with rest_port := none } n fs).base_url
        = "https://" ++ nc.rpc_host ++ ":" ++ "8080"
      ∧ (LNDClient._setup_rest_client { nc with rest_port := some 0 } n fs).base_url
        = "https://" ++ nc.rpc_host ++ ":" ++ "8080"
      ∧ LNDClient.init
          { nodes := [(n, { nc with implementation := "LND", rest_port := none })] }
          n fs
        = .ok (LNDClient._setup_rest_client
            { nc with implementation := "LND", rest_port := none } n fs) := by
  have h3 : exceptIsOk (LNDClient.init config node_name fs)
        = !(lndInitShouldFail config node_name)
      ∧ exceptErrIsValueError (LNDClient.init config node_name fs)
        = lndInitShouldFail config node_name
      ∧ exceptErrIsConnectionError (LNDClient.init config node_name fs) = false := by
    unfold LNDClient.init lndInitShouldFail
    cases h : config.nodes.lookup node_name with
    | none =>
        simp [exceptIsOk, exceptErrIsValueError, exceptErrIsConnectionError,
          PyError.isValueError, PyError.isConnectionError]
    | some nc2 =>
        by_cases h1 : nc2.implementation = "LND" <;>
          simp [h1, exceptIsOk, exceptErrIsValueError, exceptErrIsConnectionError,
            PyError.isValueError, PyError.isConnectionError]
  refine ⟨h3.1, h3.2.1, h3.2.2, ?_, ?_, ?_⟩
  · show "https://" ++ nc.rpc_host ++ ":" ++ toString (8080 : Nat)
        = "https://" ++ nc.rpc_host ++ ":" ++ "8080"
    rfl
  · show "https://" ++ nc.rpc_host ++ ":" ++ toString (8080 : Nat)
        = "https://" ++ nc.rpc_host ++ ":" ++ "8080"
    rfl
  · simp [LNDClient.init, List.lookup]

/-- A filesystem holding exactly one file at path `p` with content
`bytes`. -/
def fsWith (p : String) (bytes : List Nat) : FileSystem :=
  fun q => if q == p then some bytes else none

/-- A filesystem with no files. -/
def fsEmpty : FileSystem := fun _ => none

/-- C9: when the configured macaroon file exists, its raw bytes are
hex-encoded (lowercase) into the fixed `Grpc-Metadata-macaroon` header held
by the client state for all subsequent calls; when the file is absent, or
no macaroon path is configured at all, the header dictionary stays empty
and construction still succeeds with no error; on concrete bytes
`[0x0b, 0xad, 0xc0]` the encoding is the string `0badc0`. -/
theorem lnd_macaroon_header_loading (nc : NodeConfig) (n p : String)
    (bytes : List Nat) (fs : FileSystem) :
    (LNDClient._setup_rest_client { nc with macaroon_path := some p } n
        (fsWith p bytes)).headers
      = [("Grpc-Metadata-macaroon", LNDClient.hexEncode bytes)]
    ∧ (LNDClient._setup_rest_client { nc with macaroon_path := some p } n
        fsEmpty).headers = []
    ∧ (LNDClient._setup_rest_client { nc with macaroon_path := none } n
        fs).headers = []
    ∧ LNDClient.init
        { nodes := [(n, { nc with implementation := "LND", macaroon_path := some p })] }
        n fsEmpty
      = .ok (LNDClient._setup_rest_client
          { nc with implementation := "LND", macaroon_path := some p } n fsEmpty)
    ∧ LNDClient.hexEncode [11, 173, 192] = "0badc0" := by
  refine ⟨?_, rfl, rfl, ?_, ?_⟩
  · simp [LNDClient._setup_rest_client, fsWith]
  · simp [LNDClient.init, List.lookup]
  · rfl

/-- C10: both clients' `connect_peer` either raise or return `True`:
for every transport behaviour the value `False` is never returned, so a
caller cannot distinguish outcomes by inspecting the boolean; on a
successful exchange the result is exactly `True`. -/
theorem connect_peer_never_returns_false (jf : Bool)
    (stc : CoreLightningClient.ClientState) (stl : LNDClient.ClientState)
    (node_id : String) (host : Option String) (port : Option Nat)
    (w1 w2 : WireOutcome Unit) :
    exceptIsOkFalse
        (CoreLightningClient.connect_peer jf stc node_id host port w1) = false
    ∧ exceptIsOkFalse
        (LNDClient.connect_peer jf stl node_id host port w2) = false
    ∧ CoreLightningClient.connect_peer jf stc node_id host port
        (WireOutcome.httpResponse 200 (some ()))
      = .ok true
    ∧ LNDClient.connect_peer jf stl node_id host port
        (WireOutcome.httpResponse 200 (some ()))
      = .ok true := by
  refine ⟨?_, ?_, rfl, rfl⟩
  · unfold CoreLightningClient.connect_peer
    cases h : CoreLightningClient._make_request jf stc w1 <;>
      simp [exceptIsOkFalse]
  · unfold LNDClient.connect_peer
    cases h : LNDClient._make_request jf stl "POST" "/v1/peers" w2 <;>
      simp [exceptIsOkFalse]
